import Mathlib

/-!
Verification of the `USDTSender` form component.

Shallow embedding of `src/src/components/USDTSender.tsx`: the form state
(`FormData`, `isLoading`), the single field updater (`handleInputChange`),
and the submission handler (`handleSubmit`), which is modelled as the list
of primitive effects it performs in source order (state-setter calls, toast
notifications, the awaited 2000 ms delay).  React state updates queued
inside one synchronous segment are applied together at the segment's end
(React automatic batching); `flushStates` computes the rendered component
states at those flush points.
-/

/-- The `FormData` interface (source lines 10-17): six string-valued fields.
Spec name mapping: `network` = `chain`, `rpcEndpoint` = `rpcUrl`,
`apiCredential` = `apiKey`, `signingSecret` = `privateKey`,
`recipientAddress` = `toAddress`, `amount` = `amount`. -/
structure FormData where
  chain : String
  rpcUrl : String
  apiKey : String
  privateKey : String
  toAddress : String
  amount : String
deriving DecidableEq, Repr

/-- The initial (and reset) form value: every field the empty string
(source lines 21-28 and 81-88). -/
def initialFormData : FormData :=
  { chain := "", rpcUrl := "", apiKey := "", privateKey := "", toAddress := "", amount := "" }

/-- The six field names of `FormData` (`keyof FormData`). -/
inductive FieldName where
  | chain
  | rpcUrl
  | apiKey
  | privateKey
  | toAddress
  | amount
deriving DecidableEq, Repr

/-- Read one field of the draft by name. -/
def getField (d : FormData) : FieldName → String
  | .chain => d.chain
  | .rpcUrl => d.rpcUrl
  | .apiKey => d.apiKey
  | .privateKey => d.privateKey
  | .toAddress => d.toAddress
  | .amount => d.amount

/-- Source `setFormData(prev => ({ ...prev, [field]: value }))`: replace the named
field, keep the rest (source line 32). -/
def setField (d : FormData) : FieldName → String → FormData
  | .chain, v => { d with chain := v }
  | .rpcUrl, v => { d with rpcUrl := v }
  | .apiKey, v => { d with apiKey := v }
  | .privateKey, v => { d with privateKey := v }
  | .toAddress, v => { d with toAddress := v }
  | .amount, v => { d with amount := v }

/-- The component's React state: the draft plus the `isLoading` flag
(source lines 21-29). -/
structure ComponentState where
  formData : FormData
  isLoading : Bool
deriving DecidableEq, Repr

/-- State on mount: empty draft, not loading. -/
def initialState : ComponentState :=
  { formData := initialFormData, isLoading := false }

/-- Source `handleInputChange` (lines 31-33): updates one form field and
touches nothing else. -/
def handleInputChange (s : ComponentState) (f : FieldName) (v : String) : ComponentState :=
  { s with formData := setField s.formData f v }

/-- Toast severity: the `variant` argument of `toast` calls. -/
inductive Variant where
  | default
  | destructive
deriving DecidableEq, Repr

/-- The primitive effects `handleSubmit` performs, in source order:
queueing a React state update (`setIsLoading` / `setFormData`), calling the
toast notifier, and awaiting the simulated-transaction delay. -/
inductive Effect where
  | setLoading (b : Bool)
  | setForm (f : FormData)
  | toast (title description : String) (variant : Variant)
  | delay (ms : Nat)
deriving DecidableEq, Repr

/-- Outcome of the validation prefix of `handleSubmit` (source lines
40-68): acceptance, or the single rejection toast (title, description)
of the first failing rule. -/
inductive ValidationResult where
  | accept
  | reject (title description : String)
deriving DecidableEq, Repr

/-- The validation prefix of `handleSubmit`, transliterated from source
lines 40-68.  JavaScript `!s` on a string field is the empty-string test;
`return` after each toast makes the rules short-circuit. -/
def validate (d : FormData) : ValidationResult :=
  if d.chain == "" || d.toAddress == "" || d.amount == "" || d.privateKey == "" then
    .reject "Missing fields" "Please fill in all required fields"
  else if d.chain == "EVM" && d.rpcUrl == "" then
    .reject "RPC URL required" "Please provide an EVM RPC URL"
  else if d.chain == "TRON" && d.apiKey == "" then
    .reject "API Key required" "Please provide a TronGrid API key"
  else
    .accept

/-- The validator as the spec's §4.2 words state it, for comparison with
`validate`: four rules in fixed order, first failing rule wins.
Spec field names are mapped to the source's as documented on `FormData`. -/
def specValidate (d : FormData) : ValidationResult :=
  if d.chain = "" ∨ d.toAddress = "" ∨ d.amount = "" ∨ d.privateKey = "" then
    .reject "Missing fields" "Please fill in all required fields"
  else if d.chain = "EVM" ∧ d.rpcUrl = "" then
    .reject "RPC URL required" "Please provide an EVM RPC URL"
  else if d.chain = "TRON" ∧ d.apiKey = "" then
    .reject "API Key required" "Please provide a TronGrid API key"
  else
    .accept

/-- The success-notification message of source line 76:
`Successfully sent ${formData.amount} USDT on ${formData.chain}`. -/
def successMessage (d : FormData) : String :=
  "Successfully sent " ++ d.amount ++ " USDT on " ++ d.chain

/-- The body of the `try` block (source lines 71-88): await the 2000 ms
simulated transaction, toast success, reset the form. -/
def tryBlock (d : FormData) : List Effect :=
  [Effect.delay 2000,
   Effect.toast "Transaction Sent! ✅" (successMessage d) Variant.default,
   Effect.setForm initialFormData]

/-- The `catch` block (source lines 89-94): the generic failure toast. -/
def catchBlock : List Effect :=
  [Effect.toast "Transaction Failed" "Please check your inputs and try again"
    Variant.destructive]

/-- The `finally` block (source lines 95-97): clear the loading flag. -/
def finallyBlock : List Effect :=
  [Effect.setLoading false]

/-- Source `handleSubmit` (lines 35-98) as the list of effects it performs,
with an oracle `throwAt` for exceptions in the `try` block: `none` means no
step throws (the actual behaviour — the simulated promise always resolves);
`some n` with `n` below the block's length means step `n` throws before
producing its effect, so the steps before it run, then the `catch` block,
then the `finally` block.  The validation prefix is outside the `try` and
cannot throw; it is factored through `validate` (the literal transliteration
of lines 40-68): a failing rule toasts its own title and description with
destructive severity, clears the loading flag and returns. -/
def handleSubmitE (d : FormData) (throwAt : Option Nat) : List Effect :=
  Effect.setLoading true ::
  (match validate d with
   | .reject t m =>
      [Effect.toast t m Variant.destructive, Effect.setLoading false]
   | .accept =>
      (match throwAt with
       | none => tryBlock d
       | some n =>
          if n < (tryBlock d).length then (tryBlock d).take n ++ catchBlock
          else tryBlock d) ++ finallyBlock)

/-- Source `handleSubmit` on the actual, non-throwing execution path. -/
def handleSubmit (d : FormData) : List Effect :=
  handleSubmitE d none

/-- Apply one effect to the component state.  Toasts and the delay do not
change the state; the two setters write their payload. -/
def applyEffect (s : ComponentState) : Effect → ComponentState
  | .setLoading b => { s with isLoading := b }
  | .setForm f => { s with formData := f }
  | .toast _ _ _ => s
  | .delay _ => s

/-- Final component state after a whole effect trace. -/
def runTrace (s : ComponentState) (es : List Effect) : ComponentState :=
  es.foldl applyEffect s

/-- The rendered component states at each flush point.  React batches state
updates queued within one synchronous segment and applies them together
when the segment yields; `handleSubmit`'s only suspension point is the
awaited delay, so the rendered states are the accumulated state at each
`delay` effect and the final state at the end of the handler. -/
def flushStates (s : ComponentState) : List Effect → List ComponentState
  | [] => [s]
  | Effect.delay _ :: es => s :: flushStates s es
  | e :: es => flushStates (applyEffect s e) es

/-- A submission attempt at the component level (form `onSubmit`, driven by
the submit button of source lines 226-244): the button is `disabled` while
`isLoading`, so a submission attempt while loading produces no effects and
leaves the state unchanged; otherwise `handleSubmit` runs on the current
draft. -/
def submitEvent (s : ComponentState) : ComponentState × List Effect :=
  if s.isLoading then (s, [])
  else
    let tr := handleSubmit s.formData
    (runTrace s tr, tr)

/-- A sequence of user field edits applied through `handleInputChange`. -/
def applyEdits (s : ComponentState) (es : List (FieldName × String)) : ComponentState :=
  es.foldl (fun t e => handleInputChange t e.1 e.2) s

/-- A fully valid EVM draft, the spec's §8 example. -/
def evmDraft : FormData :=
  { chain := "EVM", rpcUrl := "https://x", apiKey := "", privateKey := "k",
    toAddress := "0xabc", amount := "10" }

/-- A fully valid TRON draft, analogous to `evmDraft`. -/
def tronDraft : FormData :=
  { chain := "TRON", rpcUrl := "", apiKey := "key", privateKey := "k",
    toAddress := "T1", amount := "5" }

/-- A draft whose network is a nonempty non-enumeration value with both
conditional fields empty. -/
def solDraft : FormData :=
  { chain := "SOL", rpcUrl := "", apiKey := "", privateKey := "k",
    toAddress := "a", amount := "1" }

/-- An EVM draft with the RPC URL left empty. -/
def evmNoRpcDraft : FormData :=
  { chain := "EVM", rpcUrl := "", apiKey := "", privateKey := "k",
    toAddress := "0xabc", amount := "10" }

example : validate initialFormData =
    .reject "Missing fields" "Please fill in all required fields" := by decide

example : validate evmNoRpcDraft =
    .reject "RPC URL required" "Please provide an EVM RPC URL" := by decide

example : validate solDraft = .accept := by decide

example :
    handleSubmit tronDraft =
    [Effect.setLoading true, Effect.delay 2000,
     Effect.toast "Transaction Sent! ✅" "Successfully sent 5 USDT on TRON" Variant.default,
     Effect.setForm initialFormData, Effect.setLoading false] := by decide

example :
    flushStates initialState (handleSubmit initialFormData) = [initialState] := by decide

/-! Helper lemmas shared by the claim theorems. -/

/-- Rule 1 fires whenever one of the four always-required fields is empty. -/
theorem validate_reject_missing (d : FormData)
    (h : d.chain = "" ∨ d.toAddress = "" ∨ d.amount = "" ∨ d.privateKey = "") :
    validate d = .reject "Missing fields" "Please fill in all required fields" := by
  have hc : (d.chain == "" || d.toAddress == "" || d.amount == "" || d.privateKey == "") = true := by
    simp only [Bool.or_eq_true, beq_iff_eq]
    rcases h with h | h | h | h <;> simp [h]
  simp [validate, hc]

/-- Acceptance: all four required fields nonempty, the conditional field of
the selected known network nonempty. -/
theorem validate_accept_of (d : FormData)
    (h1 : d.chain ≠ "") (h2 : d.toAddress ≠ "") (h3 : d.amount ≠ "") (h4 : d.privateKey ≠ "")
    (h5 : d.chain = "EVM" → d.rpcUrl ≠ "") (h6 : d.chain = "TRON" → d.apiKey ≠ "") :
    validate d = .accept := by
  have c1 : (d.chain == "" || d.toAddress == "" || d.amount == "" || d.privateKey == "") = false := by
    simp [h1, h2, h3, h4]
  have c2 : (d.chain == "EVM" && d.rpcUrl == "") = false := by
    by_cases h : d.chain = "EVM"
    · simp [h, h5 h]
    · simp [h]
  have c3 : (d.chain == "TRON" && d.apiKey == "") = false := by
    by_cases h : d.chain = "TRON"
    · simp [h, h6 h]
    · simp [h]
  simp [validate, c1, c2, c3]

/-- Acceptance for the spec's two "fully valid" draft shapes. -/
theorem validate_accept_of_valid (d : FormData)
    (hv : (d.chain = "EVM" ∧ d.rpcUrl ≠ "") ∨ (d.chain = "TRON" ∧ d.apiKey ≠ ""))
    (h2 : d.toAddress ≠ "") (h3 : d.amount ≠ "") (h4 : d.privateKey ≠ "") :
    validate d = .accept := by
  rcases hv with ⟨hc, hr⟩ | ⟨hc, ha⟩
  · exact validate_accept_of d (by rw [hc]; decide) h2 h3 h4 (fun _ => hr)
      (fun h => by rw [hc] at h; exact absurd h (by decide))
  · exact validate_accept_of d (by rw [hc]; decide) h2 h3 h4
      (fun h => by rw [hc] at h; exact absurd h (by decide)) (fun _ => ha)

/-- The effect trace of a rejected submission. -/
theorem handleSubmit_of_reject (d : FormData) (t m : String)
    (h : validate d = .reject t m) :
    handleSubmit d =
      [Effect.setLoading true, Effect.toast t m Variant.destructive, Effect.setLoading false] := by
  simp [handleSubmit, handleSubmitE, h]

/-- The effect trace of an accepted (non-throwing) submission. -/
theorem handleSubmit_of_accept (d : FormData) (h : validate d = .accept) :
    handleSubmit d =
      [Effect.setLoading true, Effect.delay 2000,
       Effect.toast "Transaction Sent! ✅" (successMessage d) Variant.default,
       Effect.setForm initialFormData, Effect.setLoading false] := by
  simp [handleSubmit, handleSubmitE, h, tryBlock, finallyBlock]

/-- The last element of a cons of a list ending in a singleton. -/
theorem getLast?_cons_concat (x a : Effect) (l : List Effect) :
    (x :: (l ++ [a])).getLast? = some a := by
  rw [← List.cons_append]
  exact List.getLast?_concat _

/-- Source and spec validator agree on every draft. -/
theorem validate_eq_specValidate (d : FormData) : validate d = specValidate d := by
  unfold validate specValidate
  split_ifs with h1 h2 h3 h4 h5 h6 <;>
    simp_all [Bool.or_eq_true, Bool.and_eq_true, beq_iff_eq]

/-- C1: on submission the validator yields acceptance or exactly one
rejection reason, in the fixed short-circuit order of the spec's four rules
(missing required fields, then EVM RPC URL, then TRON API key, then
accept), and no other check is applied: the source validator coincides with
the spec-ordered validator on every draft, a rejection produces exactly the
one rejecting toast, and acceptance applies no further check before the
success path. -/
theorem C1_validator_contract (d : FormData) :
    validate d = specValidate d ∧
    (∀ t m, validate d = .reject t m →
      handleSubmit d =
        [Effect.setLoading true, Effect.toast t m Variant.destructive,
         Effect.setLoading false]) ∧
    (validate d = .accept →
      handleSubmit d =
        [Effect.setLoading true, Effect.delay 2000,
         Effect.toast "Transaction Sent! ✅" (successMessage d) Variant.default,
         Effect.setForm initialFormData, Effect.setLoading false]) :=
  ⟨validate_eq_specValidate d,
   fun t m h => handleSubmit_of_reject d t m h,
   fun h => handleSubmit_of_accept d h⟩

/-- Witness for C1 at the EVM-draft-without-RPC-URL input. -/
theorem C1_validator_contract_witness :
    validate evmNoRpcDraft = specValidate evmNoRpcDraft ∧
    handleSubmit evmNoRpcDraft =
      [Effect.setLoading true,
       Effect.toast "RPC URL required" "Please provide an EVM RPC URL" Variant.destructive,
       Effect.setLoading false] :=
  ⟨(C1_validator_contract evmNoRpcDraft).1,
   (C1_validator_contract evmNoRpcDraft).2.1 "RPC URL required" "Please provide an EVM RPC URL"
     (by decide)⟩

/-- C2: a draft with any of the four always-required fields empty is
rejected with the missing-fields toast, and the rendered loading flag is
never true at any flush point of the submission attempt (the two loading
writes of the rejection path fall in one synchronous segment, so React
batching coalesces them and the rendered flag stays false). -/
theorem C2_missing_fields_no_loading (d : FormData)
    (h : d.chain = "" ∨ d.toAddress = "" ∨ d.amount = "" ∨ d.privateKey = "") :
    Effect.toast "Missing fields" "Please fill in all required fields" Variant.destructive
      ∈ handleSubmit d ∧
    true ∉ (flushStates ⟨d, false⟩ (handleSubmit d)).map ComponentState.isLoading := by
  rw [handleSubmit_of_reject d _ _ (validate_reject_missing d h)]
  refine ⟨by simp, ?_⟩
  simp [flushStates, applyEffect]

/-- Witness for C2 at the all-empty initial draft. -/
theorem C2_missing_fields_no_loading_witness :
    Effect.toast "Missing fields" "Please fill in all required fields" Variant.destructive
      ∈ handleSubmit initialFormData ∧
    true ∉ (flushStates ⟨initialFormData, false⟩ (handleSubmit initialFormData)).map
      ComponentState.isLoading :=
  C2_missing_fields_no_loading initialFormData (Or.inl rfl)

/-- C3: a fully valid draft (EVM with nonempty RPC URL, or TRON with
nonempty API key, plus nonempty recipient, amount and private key) runs the
full success path in order: loading set true, the 2000 ms delay, a success
toast whose message contains the amount and the network name, the reset of
every field to the empty string, and loading set false. -/
theorem C3_success_path (d : FormData)
    (hv : (d.chain = "EVM" ∧ d.rpcUrl ≠ "") ∨ (d.chain = "TRON" ∧ d.apiKey ≠ ""))
    (h2 : d.toAddress ≠ "") (h3 : d.amount ≠ "") (h4 : d.privateKey ≠ "") :
    handleSubmit d =
      [Effect.setLoading true, Effect.delay 2000,
       Effect.toast "Transaction Sent! ✅" (successMessage d) Variant.default,
       Effect.setForm initialFormData, Effect.setLoading false] ∧
    (∃ p q : String, successMessage d = p ++ d.amount ++ q) ∧
    (∃ p q : String, successMessage d = p ++ d.chain ++ q) := by
  refine ⟨handleSubmit_of_accept d (validate_accept_of_valid d hv h2 h3 h4), ?_, ?_⟩
  · exact ⟨"Successfully sent ", " USDT on " ++ d.chain, by
      simp [successMessage, String.append_assoc]⟩
  · exact ⟨"Successfully sent " ++ d.amount ++ " USDT on ", "", by
      simp [successMessage, String.append_assoc, String.append_empty]⟩

/-- Witness for C3 at the spec's fully valid EVM draft. -/
theorem C3_success_path_witness :
    handleSubmit evmDraft =
      [Effect.setLoading true, Effect.delay 2000,
       Effect.toast "Transaction Sent! ✅" (successMessage evmDraft) Variant.default,
       Effect.setForm initialFormData, Effect.setLoading false] ∧
    (∃ p q : String, successMessage evmDraft = p ++ evmDraft.amount ++ q) ∧
    (∃ p q : String, successMessage evmDraft = p ++ evmDraft.chain ++ q) :=
  C3_success_path evmDraft (Or.inl ⟨by decide, by decide⟩) (by decide) (by decide) (by decide)

/-- C4: every execution of the submission handler ends by clearing the
loading flag (success, rejection, and caught exception alike), and when a
step of the post-validation path throws, the exception is caught and the
generic failure toast is reported with destructive severity. -/
theorem C4_exception_cleanup (d : FormData) (o : Option Nat) :
    (handleSubmitE d o).getLast? = some (Effect.setLoading false) ∧
    (validate d = .accept → ∀ n, o = some n → n < (tryBlock d).length →
      Effect.toast "Transaction Failed" "Please check your inputs and try again"
        Variant.destructive ∈ handleSubmitE d o) := by
  constructor
  · unfold handleSubmitE
    cases hv : validate d with
    | reject t m => rfl
    | accept =>
        cases o with
        | none => exact getLast?_cons_concat _ _ _
        | some n =>
            by_cases hn : n < (tryBlock d).length
            · simp only [hn, if_true]
              exact getLast?_cons_concat _ _ _
            · simp only [hn, if_false]
              exact getLast?_cons_concat _ _ _
  · intro hv n ho hn
    subst ho
    simp [handleSubmitE, hv, hn, catchBlock]

/-- Witness for C4: the valid EVM draft with the second try-block step
throwing. -/
theorem C4_exception_cleanup_witness :
    (handleSubmitE evmDraft (some 1)).getLast? = some (Effect.setLoading false) ∧
    Effect.toast "Transaction Failed" "Please check your inputs and try again"
      Variant.destructive ∈ handleSubmitE evmDraft (some 1) :=
  ⟨(C4_exception_cleanup evmDraft (some 1)).1,
   (C4_exception_cleanup evmDraft (some 1)).2 (by decide) 1 rfl (by decide)⟩

/-- C5: a submission attempt that fails validation leaves every field of
the draft unchanged (the final form state equals the submitted draft), and
no form reset occurs on that attempt — only the success path ever emits
one. -/
theorem C5_draft_preserved (d : FormData) (h : validate d ≠ .accept) (b : Bool) :
    (runTrace ⟨d, b⟩ (handleSubmit d)).formData = d ∧
    Effect.setForm initialFormData ∉ handleSubmit d := by
  cases hv : validate d with
  | accept => exact absurd hv h
  | reject t m =>
      rw [handleSubmit_of_reject d t m hv]
      exact ⟨by simp [runTrace, applyEffect], by simp⟩

/-- Witness for C5 at the all-empty draft. -/
theorem C5_draft_preserved_witness :
    (runTrace ⟨initialFormData, false⟩ (handleSubmit initialFormData)).formData =
      initialFormData ∧
    Effect.setForm initialFormData ∉ handleSubmit initialFormData :=
  C5_draft_preserved initialFormData (by decide) false

/-- Requirement flag of the EVM RPC endpoint: the guard of validation rule 2
and of the conditional RPC URL input (source lines 50 and 173). -/
def rpcRequired (d : FormData) : Bool :=
  d.chain == "EVM"

/-- Requirement flag of the TRON API credential: the guard of validation
rule 3 and of the conditional API key input (source lines 60 and 185). -/
def apiRequired (d : FormData) : Bool :=
  d.chain == "TRON"

/-- Counterexample to C6: in the initial draft state (network unset)
neither the RPC-endpoint requirement nor the API-credential requirement is
active, so it is not the case that exactly one of the two is active in
every draft state. -/
theorem C6_cex :
    ¬ ((rpcRequired initialFormData = true ∧ apiRequired initialFormData = false) ∨
       (rpcRequired initialFormData = false ∧ apiRequired initialFormData = true)) := by
  decide

/-- C6 amended: at most one of the two requirements is active, each is
determined solely by the network value (RPC endpoint required iff network =
EVM, API credential required iff network = TRON), and exactly one is active
whenever the network is one of the two enumerated values. -/
theorem C6_requirements_amended (d : FormData) :
    ¬ (rpcRequired d = true ∧ apiRequired d = true) ∧
    rpcRequired d = (d.chain == "EVM") ∧
    apiRequired d = (d.chain == "TRON") ∧
    (d.chain = "EVM" ∨ d.chain = "TRON" →
      ((rpcRequired d = true ∧ apiRequired d = false) ∨
       (rpcRequired d = false ∧ apiRequired d = true))) ∧
    (∀ e : FormData, d.chain = e.chain →
      rpcRequired d = rpcRequired e ∧ apiRequired d = apiRequired e) := by
  refine ⟨?_, rfl, rfl, ?_, ?_⟩
  · rintro ⟨h1, h2⟩
    simp only [rpcRequired, apiRequired, beq_iff_eq] at h1 h2
    rw [h1] at h2
    exact absurd h2 (by decide)
  · rintro (hc | hc) <;> simp [rpcRequired, apiRequired, hc]
  · intro e he
    simp [rpcRequired, apiRequired, he]

/-- Witness for C6 amended: the valid EVM draft activates exactly the RPC
requirement, and the requirement flags agree with any draft sharing its
network. -/
theorem C6_requirements_amended_witness :
    ((rpcRequired evmDraft = true ∧ apiRequired evmDraft = false) ∨
     (rpcRequired evmDraft = false ∧ apiRequired evmDraft = true)) ∧
    rpcRequired evmDraft = rpcRequired evmNoRpcDraft :=
  ⟨(C6_requirements_amended evmDraft).2.2.2.1 (Or.inl rfl),
   ((C6_requirements_amended evmDraft).2.2.2.2 evmNoRpcDraft rfl).1⟩

/-- C7: while the loading flag is true the submit control is inert — a
submission attempt produces no effects and leaves the component state
unchanged, so no two submissions can be in flight at once. -/
theorem C7_inert_while_loading (s : ComponentState) (h : s.isLoading = true) :
    submitEvent s = (s, []) := by
  simp [submitEvent, h]

/-- Witness for C7 at a loading component holding the valid EVM draft. -/
theorem C7_inert_while_loading_witness :
    submitEvent ⟨evmDraft, true⟩ = (⟨evmDraft, true⟩, []) :=
  C7_inert_while_loading ⟨evmDraft, true⟩ rfl

/-- C8: updating one named field replaces exactly that field's value and
leaves the other five fields and the loading flag unchanged. -/
theorem C8_setField_frame (s : ComponentState) (f : FieldName) (v : String) :
    getField (handleInputChange s f v).formData f = v ∧
    (∀ g : FieldName, g ≠ f →
      getField (handleInputChange s f v).formData g = getField s.formData g) ∧
    (handleInputChange s f v).isLoading = s.isLoading := by
  refine ⟨?_, ?_, rfl⟩
  · cases f <;> rfl
  · intro g hg
    cases f <;> cases g <;> first | rfl | exact absurd rfl hg

/-- Witness for C8: setting the amount leaves the network and the loading
flag unchanged. -/
theorem C8_setField_frame_witness :
    getField (handleInputChange initialState .amount "10").formData .amount = "10" ∧
    getField (handleInputChange initialState .amount "10").formData .chain =
      getField initialState.formData .chain ∧
    (handleInputChange initialState .amount "10").isLoading = initialState.isLoading :=
  ⟨(C8_setField_frame initialState .amount "10").1,
   (C8_setField_frame initialState .amount "10").2.1 .chain (by decide),
   (C8_setField_frame initialState .amount "10").2.2⟩

/-- C9: a successful submission ends in exactly the fresh component state
(empty draft, loading false), so a second submission attempt starting after
the first attempt's reset — with any sequence of field edits entered for
it — behaves identically to submitting from a fresh component: same final
state and same effect trace, with no residual state from the first
submission. -/
theorem C9_reset_independence (d : FormData)
    (hv : (d.chain = "EVM" ∧ d.rpcUrl ≠ "") ∨ (d.chain = "TRON" ∧ d.apiKey ≠ ""))
    (h2 : d.toAddress ≠ "") (h3 : d.amount ≠ "") (h4 : d.privateKey ≠ "") :
    runTrace ⟨d, false⟩ (handleSubmit d) = initialState ∧
    ∀ es : List (FieldName × String),
      submitEvent (applyEdits (runTrace ⟨d, false⟩ (handleSubmit d)) es) =
      submitEvent (applyEdits initialState es) := by
  have hrun : runTrace ⟨d, false⟩ (handleSubmit d) = initialState := by
    rw [handleSubmit_of_accept d (validate_accept_of_valid d hv h2 h3 h4)]
    simp [runTrace, applyEffect, initialState]
  exact ⟨hrun, fun es => by rw [hrun]⟩

/-- Witness for C9: the valid TRON draft resets to the fresh state, and a
second attempt made after entering the valid EVM draft field-by-field
coincides with the same attempt on a fresh component. -/
theorem C9_reset_independence_witness :
    runTrace ⟨tronDraft, false⟩ (handleSubmit tronDraft) = initialState ∧
    submitEvent (applyEdits (runTrace ⟨tronDraft, false⟩ (handleSubmit tronDraft))
        [(.chain, "EVM"), (.rpcUrl, "https://x"), (.toAddress, "0xabc"),
         (.amount, "10"), (.privateKey, "k")]) =
      submitEvent (applyEdits initialState
        [(.chain, "EVM"), (.rpcUrl, "https://x"), (.toAddress, "0xabc"),
         (.amount, "10"), (.privateKey, "k")]) :=
  ⟨(C9_reset_independence tronDraft (Or.inr ⟨by decide, by decide⟩)
      (by decide) (by decide) (by decide)).1,
   (C9_reset_independence tronDraft (Or.inr ⟨by decide, by decide⟩)
      (by decide) (by decide) (by decide)).2
     [(.chain, "EVM"), (.rpcUrl, "https://x"), (.toAddress, "0xabc"),
      (.amount, "10"), (.privateKey, "k")]⟩

/-- C10: a draft whose network is nonempty but neither EVM nor TRON, with
recipient, amount and private key nonempty, passes validation and runs the
full success path even with both conditional credential fields empty — the
validator never checks that the network belongs to the two-value
enumeration. -/
theorem C10_non_enum_network (d : FormData)
    (h0 : d.chain ≠ "") (h1 : d.chain ≠ "EVM") (h2 : d.chain ≠ "TRON")
    (h3 : d.toAddress ≠ "") (h4 : d.amount ≠ "") (h5 : d.privateKey ≠ "")
    (h6 : d.rpcUrl = "") (h7 : d.apiKey = "") :
    validate d = .accept ∧
    handleSubmit d =
      [Effect.setLoading true, Effect.delay 2000,
       Effect.toast "Transaction Sent! ✅" (successMessage d) Variant.default,
       Effect.setForm initialFormData, Effect.setLoading false] := by
  have hacc : validate d = .accept :=
    validate_accept_of d h0 h3 h4 h5 (fun h => absurd h h1) (fun h => absurd h h2)
  exact ⟨hacc, handleSubmit_of_accept d hacc⟩

/-- Witness for C10 at a draft selecting the non-enumeration network SOL
with both credential fields empty. -/
theorem C10_non_enum_network_witness :
    validate solDraft = .accept ∧
    handleSubmit solDraft =
      [Effect.setLoading true, Effect.delay 2000,
       Effect.toast "Transaction Sent! ✅" (successMessage solDraft) Variant.default,
       Effect.setForm initialFormData, Effect.setLoading false] :=
  C10_non_enum_network solDraft (by decide) (by decide) (by decide) (by decide)
    (by decide) (by decide) rfl rfl
